import Mathlib

/-!
Verification of the polymarket-trading-bot repository.

Part I embeds the automated arbitrage engine (opportunity detection,
cooldown gating, bracket-order orchestration, reconciliation, risk gate).
The engine source file (auto_trading_bot.ts) is not present in the
repository snapshot, so these definitions are modelled from the
specification's component design, as marked in their doc comments.

Part II embeds the interactive CLI shell from src/main.ts, which is
present in the snapshot, translated directly from the TypeScript.
-/

namespace PolymarketBot

/-! ## Part I: the trading engine (modelled from the spec) -/

/-- Modelled from the spec: order side (data model, TradeLeg). -/
inductive Side where
  | BUY
  | SELL
deriving DecidableEq, Repr

/-- Modelled from the spec: order kind (data model, TradeLeg). -/
inductive OrderKind where
  | MARKET
  | LIMIT
deriving DecidableEq, Repr

/-- Modelled from the spec: leg status (data model, TradeLeg). -/
inductive LegStatus where
  | PENDING
  | SUBMITTED
  | FILLED
  | CANCELLED
  | REJECTED
deriving DecidableEq, Repr

/-- Modelled from the spec: Position lifecycle state (data model, Position). -/
inductive PosState where
  | OPENING
  | ACTIVE
  | CLOSING
  | CLOSED
  | FAILED
deriving DecidableEq, Repr

/-- Modelled from the spec: why a Position closed (data model, Position). -/
inductive CloseReason where
  | TAKE_PROFIT
  | STOP_LOSS
  | MANUAL
  | ROLLBACK
deriving DecidableEq, Repr

/-- Modelled from the spec: the immutable RiskConfig input
(threshold, offsets, trade amount, cooldown, position limit). -/
structure RiskConfig where
  priceDifferenceThreshold : ℚ
  takeProfitOffset : ℚ
  stopLossOffset : ℚ
  tradeAmountUSD : ℚ
  cooldownSeconds : ℤ
  maxConcurrentPositions : ℕ
deriving DecidableEq, Repr

/-- Modelled from the spec: the Opportunity emitted by the detector
to the Bracket Order Orchestrator. -/
structure Opportunity where
  side : Side
  referencePrice : ℚ
deriving DecidableEq, Repr

/-- Modelled from the spec: signed divergence between oracle price and
exchange midpoint (section 4.4). -/
def divergence (oraclePrice marketMidpoint : ℚ) : ℚ :=
  oraclePrice - marketMidpoint

/-- Modelled from the spec: the cooldown suppression test of section 4.4 —
suppress when lastActionAt exists and now minus lastActionAt is below
cooldownSeconds. -/
def cooldownActive (cfg : RiskConfig) (lastActionAt : Option ℤ) (now : ℤ) : Bool :=
  match lastActionAt with
  | some t => decide (now - t < cfg.cooldownSeconds)
  | none => false

/-- Modelled from the spec: the Opportunity Detector's decision on one tick
(section 4.4), given a fresh PriceTick and a fresh MarketQuote.  Checks the
cooldown gate, then emits an Opportunity when the absolute divergence is at
or above the threshold, BUY when the divergence is positive, SELL otherwise,
at the market midpoint as reference price. -/
def detectOpportunity (cfg : RiskConfig) (lastActionAt : Option ℤ) (now : ℤ)
    (oraclePrice marketMidpoint : ℚ) : Option Opportunity :=
  if cooldownActive cfg lastActionAt now then
    none
  else if |divergence oraclePrice marketMidpoint| ≥ cfg.priceDifferenceThreshold then
    some { side := if divergence oraclePrice marketMidpoint > 0 then Side.BUY else Side.SELL
           referencePrice := marketMidpoint }
  else
    none

/-- Modelled from the spec: one triggering event of the decision pipeline —
a fresh oracle price and market midpoint at a given time, together with the
Risk Gate's verdict and the exchange's response to an entry submission at
that moment. -/
structure Tick where
  time : ℤ
  oraclePrice : ℚ
  marketMidpoint : ℚ
  gateOk : Bool
  submitOk : Bool
deriving DecidableEq, Repr

/-- Modelled from the spec: one pass of the detector / risk-gate /
orchestrator pipeline as far as the cooldown state is concerned (sections
4.4 and 4.5): when an Opportunity is emitted and the Risk Gate allows it, an
entry submission is attempted and lastActionAt is set to the current time
regardless of the submission outcome; otherwise the cooldown state is left
unchanged.  Returns the new lastActionAt and the time of the entry attempt,
if one was made. -/
def stepEntry (cfg : RiskConfig) (lastActionAt : Option ℤ) (tk : Tick) :
    Option ℤ × Option ℤ :=
  match detectOpportunity cfg lastActionAt tk.time tk.oraclePrice tk.marketMidpoint with
  | none => (lastActionAt, none)
  | some _ =>
      if tk.gateOk then (some tk.time, some tk.time)
      else (lastActionAt, none)

/-- Modelled from the spec: run the decision pipeline over a sequence of
ticks, collecting the times at which entry attempts were made. -/
def runTicks (cfg : RiskConfig) (lastActionAt : Option ℤ) : List Tick → List ℤ
  | [] => []
  | tk :: rest =>
      ((stepEntry cfg lastActionAt tk).2).toList ++
        runTicks cfg (stepEntry cfg lastActionAt tk).1 rest

/-- Modelled from the spec: one order leg of the bracket (data model,
TradeLeg). -/
structure TradeLeg where
  exchangeOrderId : Option String
  tokenId : String
  side : Side
  kind : OrderKind
  limitPrice : Option ℚ
  size : ℚ
  status : LegStatus
deriving DecidableEq, Repr

/-- Modelled from the spec: a bracket Position (data model, Position).  The
anomaly flag records the logged simultaneous-fill anomaly of section 4.6. -/
structure Position where
  tokenId : String
  entryLeg : TradeLeg
  takeProfitLeg : TradeLeg
  stopLossLeg : TradeLeg
  state : PosState
  closeReason : Option CloseReason
  anomaly : Bool
deriving DecidableEq, Repr

/-- Modelled from the spec: entry size in shares (section 4.5 step 2). -/
def entrySize (cfg : RiskConfig) (referencePrice : ℚ) : ℚ :=
  cfg.tradeAmountUSD / referencePrice

/-- Modelled from the spec: take-profit limit price (section 4.5 step 2). -/
def tpLimitPrice (cfg : RiskConfig) (referencePrice : ℚ) : ℚ :=
  referencePrice + cfg.takeProfitOffset

/-- Modelled from the spec: stop-loss limit price (section 4.5 step 2). -/
def slLimitPrice (cfg : RiskConfig) (referencePrice : ℚ) : ℚ :=
  referencePrice - cfg.stopLossOffset

/-- Modelled from the spec: steps 2 to 5 of the Orchestrator's open
algorithm (section 4.5).  Builds the three legs with the computed size and
limit prices; the entry is submitted as a market order; on submission
failure the Position is FAILED with no exit legs placed, on success it is
OPENING with the entry SUBMITTED and both exits still PENDING. -/
def openPosition (cfg : RiskConfig) (tokenId : String) (opp : Opportunity)
    (entrySubmitOk : Bool) : Position :=
  { tokenId := tokenId
    entryLeg :=
      { exchangeOrderId := if entrySubmitOk then some "entry" else none
        tokenId := tokenId
        side := opp.side
        kind := OrderKind.MARKET
        limitPrice := none
        size := entrySize cfg opp.referencePrice
        status := if entrySubmitOk then LegStatus.SUBMITTED else LegStatus.REJECTED }
    takeProfitLeg :=
      { exchangeOrderId := none
        tokenId := tokenId
        side := Side.SELL
        kind := OrderKind.LIMIT
        limitPrice := some (tpLimitPrice cfg opp.referencePrice)
        size := entrySize cfg opp.referencePrice
        status := LegStatus.PENDING }
    stopLossLeg :=
      { exchangeOrderId := none
        tokenId := tokenId
        side := Side.SELL
        kind := OrderKind.LIMIT
        limitPrice := some (slLimitPrice cfg opp.referencePrice)
        size := entrySize cfg opp.referencePrice
        status := LegStatus.PENDING }
    state := if entrySubmitOk then PosState.OPENING else PosState.FAILED
    closeReason := none
    anomaly := false }

/-- Modelled from the spec: which leg of the bracket an exchange call is
about. -/
inductive Leg where
  | entry
  | takeProfit
  | stopLoss
deriving DecidableEq, Repr

/-- Modelled from the spec: the calls the Reconciliation Loop and
Orchestrator make against the exchange trading API (section 6). -/
inductive ExchangeCall where
  | poll (l : Leg)
  | submit (l : Leg)
  | cancel (l : Leg)
deriving DecidableEq, Repr

/-- Modelled from the spec: the inputs of one reconciliation pass over a
Position — the statuses the exchange reports for the polled legs, the
outcomes of any exit-leg submissions attempted during this pass, and
whether a cancel request is accepted. -/
structure Obs where
  entryStatus : LegStatus
  tpSubmitOk : Bool
  slSubmitOk : Bool
  tpStatus : LegStatus
  slStatus : LegStatus
  cancelOk : Bool
deriving DecidableEq, Repr

/-- Modelled from the spec: one pass of the Reconciliation Loop over a
single Position (section 4.6), with the rollback rule of section 4.5 step 6.
CLOSED and FAILED Positions are skipped entirely — no polls, no mutation.
In OPENING the entry is polled; on FILLED the two exit legs are submitted
(take profit first); if either submission fails the already-submitted
sibling is cancelled and the Position is FAILED with closeReason ROLLBACK,
while the entry fill is left untouched.  In ACTIVE both exits are polled;
exactly one FILLED moves to CLOSING with a cancel issued for the sibling
and the closeReason recorded; both FILLED is the logged simultaneous-fill
anomaly, treated as already closed with the first-observed reason.  In
CLOSING the sibling is polled until CANCELLED (or FILLED, the same anomaly);
a rejected cancel marks the Position FAILED. -/
def reconcile (pos : Position) (ob : Obs) : Position × List ExchangeCall :=
  match pos.state with
  | PosState.CLOSED => (pos, [])
  | PosState.FAILED => (pos, [])
  | PosState.OPENING =>
      match ob.entryStatus with
      | LegStatus.FILLED =>
          if ob.tpSubmitOk then
            if ob.slSubmitOk then
              ({ pos with
                  entryLeg := { pos.entryLeg with status := LegStatus.FILLED }
                  takeProfitLeg := { pos.takeProfitLeg with status := LegStatus.SUBMITTED }
                  stopLossLeg := { pos.stopLossLeg with status := LegStatus.SUBMITTED }
                  state := PosState.ACTIVE },
               [ExchangeCall.poll Leg.entry, ExchangeCall.submit Leg.takeProfit,
                ExchangeCall.submit Leg.stopLoss])
            else
              ({ pos with
                  entryLeg := { pos.entryLeg with status := LegStatus.FILLED }
                  takeProfitLeg := { pos.takeProfitLeg with status := LegStatus.CANCELLED }
                  stopLossLeg := { pos.stopLossLeg with status := LegStatus.REJECTED }
                  state := PosState.FAILED
                  closeReason := some CloseReason.ROLLBACK },
               [ExchangeCall.poll Leg.entry, ExchangeCall.submit Leg.takeProfit,
                ExchangeCall.submit Leg.stopLoss, ExchangeCall.cancel Leg.takeProfit])
          else
            ({ pos with
                entryLeg := { pos.entryLeg with status := LegStatus.FILLED }
                takeProfitLeg := { pos.takeProfitLeg with status := LegStatus.REJECTED }
                state := PosState.FAILED
                closeReason := some CloseReason.ROLLBACK },
             [ExchangeCall.poll Leg.entry, ExchangeCall.submit Leg.takeProfit])
      | LegStatus.REJECTED =>
          ({ pos with
              entryLeg := { pos.entryLeg with status := LegStatus.REJECTED }
              state := PosState.FAILED },
           [ExchangeCall.poll Leg.entry])
      | LegStatus.CANCELLED =>
          ({ pos with
              entryLeg := { pos.entryLeg with status := LegStatus.CANCELLED }
              state := PosState.FAILED },
           [ExchangeCall.poll Leg.entry])
      | st =>
          ({ pos with entryLeg := { pos.entryLeg with status := st } },
           [ExchangeCall.poll Leg.entry])
  | PosState.ACTIVE =>
      match ob.tpStatus, ob.slStatus with
      | LegStatus.FILLED, LegStatus.FILLED =>
          ({ pos with
              takeProfitLeg := { pos.takeProfitLeg with status := LegStatus.FILLED }
              stopLossLeg := { pos.stopLossLeg with status := LegStatus.FILLED }
              state := PosState.CLOSED
              closeReason := some CloseReason.TAKE_PROFIT
              anomaly := true },
           [ExchangeCall.poll Leg.takeProfit, ExchangeCall.poll Leg.stopLoss])
      | LegStatus.FILLED, _ =>
          ({ pos with
              takeProfitLeg := { pos.takeProfitLeg with status := LegStatus.FILLED }
              state := PosState.CLOSING
              closeReason := some CloseReason.TAKE_PROFIT },
           [ExchangeCall.poll Leg.takeProfit, ExchangeCall.poll Leg.stopLoss,
            ExchangeCall.cancel Leg.stopLoss])
      | _, LegStatus.FILLED =>
          ({ pos with
              stopLossLeg := { pos.stopLossLeg with status := LegStatus.FILLED }
              state := PosState.CLOSING
              closeReason := some CloseReason.STOP_LOSS },
           [ExchangeCall.poll Leg.takeProfit, ExchangeCall.poll Leg.stopLoss,
            ExchangeCall.cancel Leg.takeProfit])
      | tpSt, slSt =>
          if tpSt = LegStatus.SUBMITTED ∧ slSt = LegStatus.SUBMITTED then
            (pos, [ExchangeCall.poll Leg.takeProfit, ExchangeCall.poll Leg.stopLoss])
          else
            ({ pos with
                takeProfitLeg := { pos.takeProfitLeg with status := tpSt }
                stopLossLeg := { pos.stopLossLeg with status := slSt }
                state := PosState.FAILED },
             [ExchangeCall.poll Leg.takeProfit, ExchangeCall.poll Leg.stopLoss])
  | PosState.CLOSING =>
      match pos.closeReason with
      | some CloseReason.TAKE_PROFIT =>
          match ob.slStatus with
          | LegStatus.CANCELLED =>
              ({ pos with
                  stopLossLeg := { pos.stopLossLeg with status := LegStatus.CANCELLED }
                  state := PosState.CLOSED },
               [ExchangeCall.poll Leg.stopLoss])
          | LegStatus.FILLED =>
              ({ pos with
                  stopLossLeg := { pos.stopLossLeg with status := LegStatus.FILLED }
                  state := PosState.CLOSED
                  anomaly := true },
               [ExchangeCall.poll Leg.stopLoss])
          | _ =>
              if ob.cancelOk then
                (pos, [ExchangeCall.poll Leg.stopLoss, ExchangeCall.cancel Leg.stopLoss])
              else
                ({ pos with state := PosState.FAILED },
                 [ExchangeCall.poll Leg.stopLoss, ExchangeCall.cancel Leg.stopLoss])
      | some CloseReason.STOP_LOSS =>
          match ob.tpStatus with
          | LegStatus.CANCELLED =>
              ({ pos with
                  takeProfitLeg := { pos.takeProfitLeg with status := LegStatus.CANCELLED }
                  state := PosState.CLOSED },
               [ExchangeCall.poll Leg.takeProfit])
          | LegStatus.FILLED =>
              ({ pos with
                  takeProfitLeg := { pos.takeProfitLeg with status := LegStatus.FILLED }
                  state := PosState.CLOSED
                  anomaly := true },
               [ExchangeCall.poll Leg.takeProfit])
          | _ =>
              if ob.cancelOk then
                (pos, [ExchangeCall.poll Leg.takeProfit, ExchangeCall.cancel Leg.takeProfit])
              else
                ({ pos with state := PosState.FAILED },
                 [ExchangeCall.poll Leg.takeProfit, ExchangeCall.cancel Leg.takeProfit])
      | _ => ({ pos with state := PosState.FAILED }, [])

/-- Modelled from the spec: repeated reconciliation passes over one
Position. -/
def runRecon (pos : Position) (obs : List Obs) : Position :=
  obs.foldl (fun p ob => (reconcile p ob).1) pos

/-- The per-state invariant the Reconciliation Loop maintains on a
Position's exit legs, close reason and anomaly flag. -/
def Inv (pos : Position) : Prop :=
  match pos.state with
  | PosState.OPENING =>
      pos.takeProfitLeg.status = LegStatus.PENDING ∧
      pos.stopLossLeg.status = LegStatus.PENDING ∧
      pos.closeReason = none ∧ pos.anomaly = false
  | PosState.ACTIVE =>
      pos.takeProfitLeg.status = LegStatus.SUBMITTED ∧
      pos.stopLossLeg.status = LegStatus.SUBMITTED ∧
      pos.closeReason = none ∧ pos.anomaly = false
  | PosState.CLOSING =>
      pos.anomaly = false ∧
      ((pos.closeReason = some CloseReason.TAKE_PROFIT ∧
          pos.takeProfitLeg.status = LegStatus.FILLED ∧
          pos.stopLossLeg.status = LegStatus.SUBMITTED) ∨
       (pos.closeReason = some CloseReason.STOP_LOSS ∧
          pos.stopLossLeg.status = LegStatus.FILLED ∧
          pos.takeProfitLeg.status = LegStatus.SUBMITTED))
  | PosState.CLOSED =>
      (pos.anomaly = false →
        (pos.takeProfitLeg.status = LegStatus.FILLED ∧
           pos.stopLossLeg.status = LegStatus.CANCELLED) ∨
        (pos.stopLossLeg.status = LegStatus.FILLED ∧
           pos.takeProfitLeg.status = LegStatus.CANCELLED)) ∧
      (pos.anomaly = true →
        pos.takeProfitLeg.status = LegStatus.FILLED ∧
        pos.stopLossLeg.status = LegStatus.FILLED)
  | PosState.FAILED => True

/-- Modelled from the spec: the Risk Gate's refusal reasons (section 4.3). -/
inductive RiskRefusal where
  | InsufficientBalance
  | PositionLimitReached
deriving DecidableEq, Repr

/-- Modelled from the spec: whether a Position counts against the
concurrent-position limit (state OPENING, ACTIVE or CLOSING). -/
def countsOpen (p : Position) : Bool :=
  p.state = PosState.OPENING || p.state = PosState.ACTIVE || p.state = PosState.CLOSING

/-- Modelled from the spec: the Risk Gate's canOpen check (section 4.3).
A total function — refusals are returned as values, never thrown: it
allows entry exactly when the count of open Positions is below
maxConcurrentPositions and the available balance covers tradeAmountUSD
plus the fee and slippage buffer. -/
def canOpen (cfg : RiskConfig) (positions : List Position) (balance feeBuffer : ℚ) :
    Except RiskRefusal Unit :=
  if positions.countP countsOpen ≥ cfg.maxConcurrentPositions then
    Except.error RiskRefusal.PositionLimitReached
  else if balance < cfg.tradeAmountUSD + feeBuffer then
    Except.error RiskRefusal.InsufficientBalance
  else
    Except.ok ()

/-! ## Part II: the interactive CLI shell (src/main.ts) -/

/-- The menu choices that require a private key (main.ts, handleInput). -/
def requiresAuth (choice : String) : Bool :=
  ["1", "2", "3", "4", "7", "8", "9", "10"].contains choice

/-- The handler a menu choice dispatches to (main.ts, the switch in
handleInput). -/
inductive BotOp where
  | showCredentials
  | checkBalances
  | checkAllowance
  | setAllowance
  | findMarket
  | getPriceData
  | placeMarketOrder
  | placeLimitOrder
  | viewOpenOrders
  | cancelOrder
deriving DecidableEq, Repr

/-- The outcome of running one dispatched handler: a throwing handler
propagates its exception out of the switch, a returning one falls through
to the final return true (main.ts, handleInput). -/
def handlerResult (throws : Bool) : Except Unit Bool :=
  if throws then Except.error () else Except.ok true

/-- The body of handleInput's try block (main.ts): the auth guard for the
choices that require a private key, then the switch on the choice.  Returns
the handlers invoked and either the boolean result of the body or the
exception a handler threw.  Only the "0" branch returns false. -/
def tryBody (hasPrivateKey throws : Bool) (choice : String) :
    List BotOp × Except Unit Bool :=
  if requiresAuth choice && !hasPrivateKey then
    ([], Except.ok true)
  else if choice = "1" then ([BotOp.showCredentials], handlerResult throws)
  else if choice = "2" then ([BotOp.checkBalances], handlerResult throws)
  else if choice = "3" then ([BotOp.checkAllowance], handlerResult throws)
  else if choice = "4" then ([BotOp.setAllowance], handlerResult throws)
  else if choice = "5" then ([BotOp.findMarket], handlerResult throws)
  else if choice = "6" then ([BotOp.getPriceData], handlerResult throws)
  else if choice = "7" then ([BotOp.placeMarketOrder], handlerResult throws)
  else if choice = "8" then ([BotOp.placeLimitOrder], handlerResult throws)
  else if choice = "9" then ([BotOp.viewOpenOrders], handlerResult throws)
  else if choice = "10" then ([BotOp.cancelOrder], handlerResult throws)
  else if choice = "0" then ([], Except.ok false)
  else ([], Except.ok true)

/-- main.ts handleInput: the try block wrapped in the catch that logs the
error and falls through to return true. -/
def handleInput (hasPrivateKey throws : Bool) (choice : String) :
    List BotOp × Bool :=
  match tryBody hasPrivateKey throws choice with
  | (ops, Except.ok b) => (ops, b)
  | (ops, Except.error _) => (ops, true)

/-- A market order request as handed to the executor (main.ts,
placeMarketOrder).  The prompted strings are kept as strings; the source's
parseFloat on the amount and the cast of the upper-cased side are numeric
and type-level details outside the confirmation gate being verified. -/
structure MarketOrderRequest where
  tokenId : String
  side : String
  amount : String
deriving DecidableEq, Repr

/-- A limit order request as handed to the executor (main.ts,
placeLimitOrder), with the same string-level treatment. -/
structure LimitOrderRequest where
  tokenId : String
  side : String
  price : String
  size : String
deriving DecidableEq, Repr

/-- main.ts placeMarketOrder: after the prompts, the executor is called
only when the confirmation answer lower-cases to exactly "yes"; otherwise
the order is cancelled and nothing is sent. -/
def placeMarketOrder (tokenId side amount confirm : String) :
    Option MarketOrderRequest :=
  if confirm.toLower = "yes" then
    some { tokenId := tokenId, side := side.toUpper, amount := amount }
  else
    none

/-- main.ts placeLimitOrder: same confirmation gate as placeMarketOrder. -/
def placeLimitOrder (tokenId side price size confirm : String) :
    Option LimitOrderRequest :=
  if confirm.toLower = "yes" then
    some { tokenId := tokenId, side := side.toUpper, price := price, size := size }
  else
    none

/-- main.ts cancelOrder: the cancel request is sent only when the
confirmation answer lower-cases to exactly "yes". -/
def cancelOrder (orderId confirm : String) : Option String :=
  if confirm.toLower = "yes" then some orderId else none

/-! ## Concrete inputs used by the witnesses -/

/-- The configuration used in concrete witnesses: the README defaults
(threshold 0.015, take profit 0.01, stop loss 0.005, 5 USDC, 30 s
cooldown). -/
def cfg0 : RiskConfig :=
  { priceDifferenceThreshold := 15/1000
    takeProfitOffset := 1/100
    stopLossOffset := 5/1000
    tradeAmountUSD := 5
    cooldownSeconds := 30
    maxConcurrentPositions := 1 }

/-- Spec scenario F: two qualifying ticks five seconds apart. -/
def ticks0 : List Tick :=
  [{ time := 0, oraclePrice := 75/100, marketMidpoint := 70/100,
     gateOk := true, submitOk := true },
   { time := 5, oraclePrice := 75/100, marketMidpoint := 70/100,
     gateOk := true, submitOk := true }]

/-- A freshly opened Position used in concrete witnesses (scenario A: BUY
at reference price 0.70, entry submitted successfully). -/
def pos0 : Position :=
  openPosition cfg0 "UP" { side := Side.BUY, referencePrice := 70/100 } true

/-- An observation in which nothing of interest happened. -/
def obQuiet : Obs :=
  { entryStatus := LegStatus.SUBMITTED, tpSubmitOk := true, slSubmitOk := true,
    tpStatus := LegStatus.SUBMITTED, slStatus := LegStatus.SUBMITTED, cancelOk := true }

/-- Observation: the entry filled and both exit submissions succeed. -/
def obEntryFilled : Obs :=
  { obQuiet with entryStatus := LegStatus.FILLED }

/-- Observation: the take-profit leg filled. -/
def obTpFilled : Obs :=
  { obQuiet with tpStatus := LegStatus.FILLED }

/-- Observation: the sibling stop-loss leg reports CANCELLED. -/
def obSlCancelled : Obs :=
  { obQuiet with slStatus := LegStatus.CANCELLED }

/-- Observation: the entry filled but the stop-loss submission fails
(spec scenario E's sibling case). -/
def obSlSubmitFails : Obs :=
  { obQuiet with entryStatus := LegStatus.FILLED, slSubmitOk := false }

/-- Scenario D's reconciliation history: entry fill, take-profit fill,
sibling cancellation confirmed. -/
def obsScenarioD : List Obs :=
  [obEntryFilled, obTpFilled, obSlCancelled]

/-- Modelled from the spec: the Position produced by opening a bracket and
running the Reconciliation Loop over a history of observations — the
reachable Position states. -/
def bracketRun (cfg : RiskConfig) (tok : String) (opp : Opportunity)
    (entrySubmitOk : Bool) (obs : List Obs) : Position :=
  runRecon (openPosition cfg tok opp entrySubmitOk) obs

/-- A Position that has reached CLOSED via scenario D, used in witnesses. -/
def posClosed0 : Position :=
  runRecon pos0 obsScenarioD

end PolymarketBot

namespace PolymarketBot

/-! ## Theorems -/

/-- C1: with the cooldown elapsed, an Opportunity is emitted exactly when
the absolute divergence reaches the threshold (equality triggers), with side
BUY for positive divergence and SELL otherwise and the market midpoint as
reference price; below the threshold nothing is emitted. -/
theorem detectOpportunity_spec (cfg : RiskConfig) (lastActionAt : Option ℤ) (now : ℤ)
    (oraclePrice marketMidpoint : ℚ)
    (hc : cooldownActive cfg lastActionAt now = false) :
    (|oraclePrice - marketMidpoint| ≥ cfg.priceDifferenceThreshold →
      detectOpportunity cfg lastActionAt now oraclePrice marketMidpoint =
        some { side := if oraclePrice - marketMidpoint > 0 then Side.BUY else Side.SELL
               referencePrice := marketMidpoint }) ∧
    (|oraclePrice - marketMidpoint| < cfg.priceDifferenceThreshold →
      detectOpportunity cfg lastActionAt now oraclePrice marketMidpoint = none) := by
  constructor
  · intro hge
    simp [detectOpportunity, divergence, hc, hge]
  · intro hlt
    simp [detectOpportunity, divergence, hc, not_le.mpr hlt]

/-- Witness for C1: spec scenarios A and B — oracle 0.75 against midpoint
0.70 triggers a BUY at 0.70, a divergence of exactly the threshold also
triggers, and divergence 0.01 emits nothing. -/
theorem detectOpportunity_spec_witness :
    detectOpportunity cfg0 none 0 (75/100) (70/100) =
        some { side := Side.BUY, referencePrice := 70/100 } ∧
    detectOpportunity cfg0 none 0 (715/1000) (70/100) =
        some { side := Side.BUY, referencePrice := 70/100 } ∧
    detectOpportunity cfg0 none 0 (71/100) (70/100) = none := by
  refine ⟨?_, ?_, ?_⟩
  · have h := (detectOpportunity_spec cfg0 none 0 (75/100) (70/100) rfl).1
      (by norm_num [cfg0, abs_of_nonneg])
    simpa [show ((75:ℚ)/100 - 70/100 > 0) from by norm_num] using h
  · have h := (detectOpportunity_spec cfg0 none 0 (715/1000) (70/100) rfl).1
      (by norm_num [cfg0, abs_of_nonneg])
    simpa [show ((715:ℚ)/1000 - 70/100 > 0) from by norm_num] using h
  · exact (detectOpportunity_spec cfg0 none 0 (71/100) (70/100) rfl).2
      (by norm_num [cfg0, abs_of_nonneg])

/-- An emitted Opportunity implies the cooldown gate was clear. -/
lemma cooldown_clear_of_detect_some (cfg : RiskConfig) (lastActionAt : Option ℤ)
    (now : ℤ) (o m : ℚ) (opp : Opportunity)
    (h : detectOpportunity cfg lastActionAt now o m = some opp) :
    cooldownActive cfg lastActionAt now = false := by
  rcases hc : cooldownActive cfg lastActionAt now
  · rfl
  · simp [detectOpportunity, hc] at h

/-- The entry-attempt times produced from a state with a recorded action at
time t0 stay separated by at least the cooldown, starting from t0. -/
lemma runTicks_chain_from (cfg : RiskConfig) (ticks : List Tick) :
    ∀ t0 : ℤ, List.Chain' (fun a b => cfg.cooldownSeconds ≤ b - a)
      (t0 :: runTicks cfg (some t0) ticks) := by
  induction ticks with
  | nil => intro t0; simp [runTicks]
  | cons tk rest ih =>
      intro t0
      rcases hdet : detectOpportunity cfg (some t0) tk.time tk.oraclePrice tk.marketMidpoint
        with _ | opp
      · simpa [runTicks, stepEntry, hdet] using ih t0
      · by_cases hg : tk.gateOk
        · have hcool := cooldown_clear_of_detect_some cfg (some t0) tk.time
            tk.oraclePrice tk.marketMidpoint opp hdet
          have hsep : cfg.cooldownSeconds ≤ tk.time - t0 := by
            simp [cooldownActive] at hcool
            omega
          simp only [runTicks, stepEntry, hdet, hg, if_pos, Option.toList_some,
            List.singleton_append]
          rw [List.chain'_cons]
          exact ⟨hsep, ih tk.time⟩
        · simpa [runTicks, stepEntry, hdet, hg] using ih t0

/-- From a fresh cooldown state the entry-attempt times are separated by at
least the cooldown. -/
lemma runTicks_chain_none (cfg : RiskConfig) (ticks : List Tick) :
    List.Chain' (fun a b => cfg.cooldownSeconds ≤ b - a) (runTicks cfg none ticks) := by
  induction ticks with
  | nil => simp [runTicks]
  | cons tk rest ih =>
      rcases hdet : detectOpportunity cfg none tk.time tk.oraclePrice tk.marketMidpoint
        with _ | opp
      · simpa [runTicks, stepEntry, hdet] using ih
      · by_cases hg : tk.gateOk
        · simpa [runTicks, stepEntry, hdet, hg] using runTicks_chain_from cfg rest tk.time
        · simpa [runTicks, stepEntry, hdet, hg] using ih

/-- C2: the detector suppresses (without error) any tick arriving within
cooldownSeconds of the recorded last action; an entry attempt always sets
lastActionAt to the attempt time, independently of the submission outcome;
and over every sequence of ticks consecutive entry-attempt times are at
least cooldownSeconds apart. -/
theorem cooldown_no_rapid_reentry (cfg : RiskConfig) (ticks : List Tick) :
    (∀ (t now : ℤ) (o m : ℚ), now - t < cfg.cooldownSeconds →
        detectOpportunity cfg (some t) now o m = none) ∧
    (∀ (lastActionAt : Option ℤ) (tk : Tick),
        ((stepEntry cfg lastActionAt tk).2).isSome = true →
        (stepEntry cfg lastActionAt tk).1 = some tk.time) ∧
    List.Chain' (fun a b => cfg.cooldownSeconds ≤ b - a) (runTicks cfg none ticks) := by
  refine ⟨?_, ?_, runTicks_chain_none cfg ticks⟩
  · intro t now o m h
    simp [detectOpportunity, cooldownActive, h]
  · intro lastActionAt tk h
    unfold stepEntry at h ⊢
    rcases hdet : detectOpportunity cfg lastActionAt tk.time tk.oraclePrice tk.marketMidpoint
      with _ | opp
    · simp [hdet] at h
    · by_cases hg : tk.gateOk
      · simp [hdet, hg]
      · simp [hdet, hg] at h

/-- Witness for C2: a tick five seconds after an action is suppressed with
a 30-second cooldown, and scenario F's two qualifying ticks five seconds
apart yield attempt times separated by at least the cooldown. -/
theorem cooldown_no_rapid_reentry_witness :
    detectOpportunity cfg0 (some 0) 5 (75/100) (70/100) = none ∧
    List.Chain' (fun a b => cfg0.cooldownSeconds ≤ b - a) (runTicks cfg0 none ticks0) :=
  ⟨(cooldown_no_rapid_reentry cfg0 ticks0).1 0 5 (75/100) (70/100) (by norm_num [cfg0]),
   (cooldown_no_rapid_reentry cfg0 ticks0).2.2⟩

/-- C3: an accepted Opportunity at reference price p yields an entry of
tradeAmountUSD / p shares, a take-profit limit at p plus the take-profit
offset and a stop-loss limit at p minus the stop-loss offset; with offsets
0.01 and 0.005 and p = 0.70 the limits are 0.71 and 0.695 (scenario C). -/
theorem bracket_sizing_spec (cfg : RiskConfig) (tok : String) (opp : Opportunity)
    (entrySubmitOk : Bool) :
    ((openPosition cfg tok opp entrySubmitOk).entryLeg.size =
        cfg.tradeAmountUSD / opp.referencePrice ∧
     (openPosition cfg tok opp entrySubmitOk).takeProfitLeg.limitPrice =
        some (opp.referencePrice + cfg.takeProfitOffset) ∧
     (openPosition cfg tok opp entrySubmitOk).stopLossLeg.limitPrice =
        some (opp.referencePrice - cfg.stopLossOffset)) ∧
    tpLimitPrice cfg0 (70/100) = 71/100 ∧
    slLimitPrice cfg0 (70/100) = 695/1000 := by
  refine ⟨⟨rfl, rfl, rfl⟩, ?_, ?_⟩ <;> norm_num [tpLimitPrice, slLimitPrice, cfg0]

end PolymarketBot

namespace PolymarketBot

/-- A freshly opened Position satisfies the reconciliation invariant. -/
lemma Inv_openPosition (cfg : RiskConfig) (tok : String) (opp : Opportunity)
    (entrySubmitOk : Bool) : Inv (openPosition cfg tok opp entrySubmitOk) := by
  cases entrySubmitOk <;> simp [Inv, openPosition]

/-- One reconciliation pass preserves the invariant. -/
lemma reconcile_Inv (pos : Position) (ob : Obs) (h : Inv pos) :
    Inv (reconcile pos ob).1 := by
  obtain ⟨tok, e, tp, sl, st, cr, an⟩ := pos
  obtain ⟨es, tso, sso, ts, ss, co⟩ := ob
  cases st
  case OPENING =>
    simp only [Inv] at h
    obtain ⟨htp, hsl, hcr, han⟩ := h
    cases es <;> cases tso <;> cases sso <;> simp_all [reconcile, Inv]
  case ACTIVE =>
    simp only [Inv] at h
    obtain ⟨htp, hsl, hcr, han⟩ := h
    cases ts <;> cases ss <;> simp_all [reconcile, Inv]
  case CLOSING =>
    simp only [Inv] at h
    obtain ⟨han, hdisj⟩ := h
    rcases hdisj with ⟨hcr, htp, hsl⟩ | ⟨hcr, hsl, htp⟩ <;> subst hcr <;>
      cases ts <;> cases ss <;> cases co <;> simp_all [reconcile, Inv]
  case CLOSED => simpa [reconcile, Inv] using h
  case FAILED => simp [reconcile, Inv]

/-- Any number of reconciliation passes preserves the invariant. -/
lemma runRecon_Inv (obs : List Obs) (pos : Position) (h : Inv pos) :
    Inv (runRecon pos obs) := by
  induction obs generalizing pos with
  | nil => exact h
  | cons ob rest ih => exact ih ((reconcile pos ob).1) (reconcile_Inv pos ob h)

end PolymarketBot

namespace PolymarketBot

/-- The invariant's content for a Position in state CLOSED. -/
lemma Inv_closed (p : Position) (hI : Inv p) (hst : p.state = PosState.CLOSED) :
    (p.anomaly = false →
      (p.takeProfitLeg.status = LegStatus.FILLED ∧
         p.stopLossLeg.status = LegStatus.CANCELLED) ∨
      (p.stopLossLeg.status = LegStatus.FILLED ∧
         p.takeProfitLeg.status = LegStatus.CANCELLED)) ∧
    (p.anomaly = true →
      p.takeProfitLeg.status = LegStatus.FILLED ∧
      p.stopLossLeg.status = LegStatus.FILLED) := by
  obtain ⟨tok, e, tp, sl, st, cr, an⟩ := p
  have hst' : st = PosState.CLOSED := hst
  subst hst'
  simpa [Inv] using hI

/-- The invariant's content for a Position in state ACTIVE. -/
lemma Inv_active (p : Position) (hI : Inv p) (hst : p.state = PosState.ACTIVE) :
    p.takeProfitLeg.status = LegStatus.SUBMITTED ∧
    p.stopLossLeg.status = LegStatus.SUBMITTED := by
  obtain ⟨tok, e, tp, sl, st, cr, an⟩ := p
  have hst' : st = PosState.ACTIVE := hst
  subst hst'
  have h := hI
  simp only [Inv] at h
  exact ⟨h.1, h.2.1⟩

/-- C4: over every reconciliation history of a freshly opened bracket, a
Position that reaches CLOSED without the logged simultaneous-fill anomaly
has exactly one exit leg FILLED and the other CANCELLED; with the anomaly
both are FILLED; and a Position in ACTIVE still has both exit legs merely
SUBMITTED — neither exit is left open or resolved once the other fills
without the state advancing. -/
theorem closed_position_exit_exclusion (cfg : RiskConfig) (tok : String)
    (opp : Opportunity) (entrySubmitOk : Bool) (obs : List Obs) :
    ((bracketRun cfg tok opp entrySubmitOk obs).state = PosState.CLOSED →
      ((bracketRun cfg tok opp entrySubmitOk obs).anomaly = false →
        ((bracketRun cfg tok opp entrySubmitOk obs).takeProfitLeg.status = LegStatus.FILLED ∧
           (bracketRun cfg tok opp entrySubmitOk obs).stopLossLeg.status = LegStatus.CANCELLED) ∨
        ((bracketRun cfg tok opp entrySubmitOk obs).stopLossLeg.status = LegStatus.FILLED ∧
           (bracketRun cfg tok opp entrySubmitOk obs).takeProfitLeg.status = LegStatus.CANCELLED)) ∧
      ((bracketRun cfg tok opp entrySubmitOk obs).anomaly = true →
        (bracketRun cfg tok opp entrySubmitOk obs).takeProfitLeg.status = LegStatus.FILLED ∧
        (bracketRun cfg tok opp entrySubmitOk obs).stopLossLeg.status = LegStatus.FILLED)) ∧
    ((bracketRun cfg tok opp entrySubmitOk obs).state = PosState.ACTIVE →
      (bracketRun cfg tok opp entrySubmitOk obs).takeProfitLeg.status = LegStatus.SUBMITTED ∧
      (bracketRun cfg tok opp entrySubmitOk obs).stopLossLeg.status = LegStatus.SUBMITTED) := by
  have hInv : Inv (bracketRun cfg tok opp entrySubmitOk obs) :=
    runRecon_Inv obs _ (Inv_openPosition cfg tok opp entrySubmitOk)
  exact ⟨fun hst => Inv_closed _ hInv hst, fun hst => Inv_active _ hInv hst⟩

/-- Witness for C4: scenario D — entry fills, the take-profit leg fills,
the sibling stop loss is cancelled; the CLOSED Position has the take-profit
leg FILLED and the stop-loss leg CANCELLED. -/
theorem closed_position_exit_exclusion_witness :
    ((bracketRun cfg0 "UP" { side := Side.BUY, referencePrice := 70/100 } true
        obsScenarioD).takeProfitLeg.status = LegStatus.FILLED ∧
      (bracketRun cfg0 "UP" { side := Side.BUY, referencePrice := 70/100 } true
        obsScenarioD).stopLossLeg.status = LegStatus.CANCELLED) ∨
    ((bracketRun cfg0 "UP" { side := Side.BUY, referencePrice := 70/100 } true
        obsScenarioD).stopLossLeg.status = LegStatus.FILLED ∧
      (bracketRun cfg0 "UP" { side := Side.BUY, referencePrice := 70/100 } true
        obsScenarioD).takeProfitLeg.status = LegStatus.CANCELLED) :=
  (((closed_position_exit_exclusion cfg0 "UP"
      { side := Side.BUY, referencePrice := 70/100 } true obsScenarioD).1
    (by decide)).1) (by decide)

end PolymarketBot

namespace PolymarketBot

/-- C5: after the entry fill is confirmed, if either exit-leg submission
fails, the Position ends FAILED with closeReason ROLLBACK, the entry fill
is never unwound (its status stays FILLED and no cancel of the entry leg is
issued), and an already-submitted take-profit leg is cancelled. -/
theorem rollback_on_exit_submission_failure (pos : Position) (ob : Obs)
    (hst : pos.state = PosState.OPENING)
    (hfill : ob.entryStatus = LegStatus.FILLED)
    (hfail : ob.tpSubmitOk = false ∨ ob.slSubmitOk = false) :
    (reconcile pos ob).1.state = PosState.FAILED ∧
    (reconcile pos ob).1.closeReason = some CloseReason.ROLLBACK ∧
    (reconcile pos ob).1.entryLeg.status = LegStatus.FILLED ∧
    ExchangeCall.cancel Leg.entry ∉ (reconcile pos ob).2 ∧
    (ob.tpSubmitOk = true →
      (reconcile pos ob).1.takeProfitLeg.status = LegStatus.CANCELLED ∧
      ExchangeCall.cancel Leg.takeProfit ∈ (reconcile pos ob).2) := by
  obtain ⟨tok, e, tp, sl, st, cr, an⟩ := pos
  obtain ⟨es, tso, sso, ts, ss, co⟩ := ob
  have hst' : st = PosState.OPENING := hst
  have hfill' : es = LegStatus.FILLED := hfill
  subst hst'
  subst hfill'
  rcases hfail with hf | hf <;> have hf' : _ = false := hf <;> subst hf'
  · simp [reconcile]
  · cases tso <;> simp [reconcile]

/-- Witness for C5: scenario E's sibling case — the entry fills, the
take-profit submission succeeds, the stop-loss submission fails; the
Position ends FAILED with ROLLBACK, the entry stays FILLED and the
take-profit leg is cancelled. -/
theorem rollback_on_exit_submission_failure_witness :
    (reconcile pos0 obSlSubmitFails).1.state = PosState.FAILED ∧
    (reconcile pos0 obSlSubmitFails).1.closeReason = some CloseReason.ROLLBACK ∧
    (reconcile pos0 obSlSubmitFails).1.entryLeg.status = LegStatus.FILLED ∧
    (reconcile pos0 obSlSubmitFails).1.takeProfitLeg.status = LegStatus.CANCELLED ∧
    ExchangeCall.cancel Leg.takeProfit ∈ (reconcile pos0 obSlSubmitFails).2 := by
  have h := rollback_on_exit_submission_failure pos0 obSlSubmitFails rfl rfl (Or.inr rfl)
  exact ⟨h.1, h.2.1, h.2.2.1, (h.2.2.2.2 rfl).1, (h.2.2.2.2 rfl).2⟩

/-- C6: the Reconciliation Loop is idempotent on a CLOSED Position — the
Position is returned unchanged and no exchange calls are issued. -/
theorem reconcile_closed_idempotent (pos : Position) (ob : Obs)
    (h : pos.state = PosState.CLOSED) :
    reconcile pos ob = (pos, []) := by
  obtain ⟨tok, e, tp, sl, st, cr, an⟩ := pos
  have h' : st = PosState.CLOSED := h
  subst h'
  rfl

/-- Witness for C6: re-running the loop on the Position closed via
scenario D changes nothing and issues no calls. -/
theorem reconcile_closed_idempotent_witness :
    reconcile posClosed0 obQuiet = (posClosed0, []) :=
  reconcile_closed_idempotent posClosed0 obQuiet (by decide)

/-- C7: the Risk Gate's canOpen is a total function into a result type — it
returns ok exactly when the count of OPENING, ACTIVE or CLOSING Positions
is below maxConcurrentPositions and the balance covers tradeAmountUSD plus
the fee and slippage buffer, and any refusal is one of the two reasons
InsufficientBalance or PositionLimitReached, not an exception. -/
theorem canOpen_spec (cfg : RiskConfig) (positions : List Position)
    (balance feeBuffer : ℚ) :
    (canOpen cfg positions balance feeBuffer = Except.ok () ↔
      positions.countP countsOpen < cfg.maxConcurrentPositions ∧
      cfg.tradeAmountUSD + feeBuffer ≤ balance) ∧
    (∀ e, canOpen cfg positions balance feeBuffer = Except.error e →
      e = RiskRefusal.InsufficientBalance ∨ e = RiskRefusal.PositionLimitReached) := by
  constructor
  · constructor
    · intro hok
      unfold canOpen at hok
      by_cases h1 : positions.countP countsOpen ≥ cfg.maxConcurrentPositions
      · rw [if_pos h1] at hok
        exact Except.noConfusion hok
      · by_cases h2 : balance < cfg.tradeAmountUSD + feeBuffer
        · rw [if_neg h1, if_pos h2] at hok
          exact Except.noConfusion hok
        · exact ⟨not_le.mp h1, not_lt.mp h2⟩
    · rintro ⟨hcount, hbal⟩
      unfold canOpen
      rw [if_neg (not_le.mpr hcount), if_neg (not_lt.mpr hbal)]
  · intro e he
    unfold canOpen at he
    by_cases h1 : positions.countP countsOpen ≥ cfg.maxConcurrentPositions
    · rw [if_pos h1] at he
      injection he with h
      exact Or.inr h.symm
    · by_cases h2 : balance < cfg.tradeAmountUSD + feeBuffer
      · rw [if_neg h1, if_pos h2] at he
        injection he with h
        exact Or.inl h.symm
      · rw [if_neg h1, if_neg h2] at he
        exact Except.noConfusion he

/-- Witness for C7: with no open Positions and a balance of 10 USDC the
gate allows entry under the default configuration; with a zero balance it
refuses with one of the two refusal reasons. -/
theorem canOpen_spec_witness :
    canOpen cfg0 [] 10 (1/20) = Except.ok () ∧
    (RiskRefusal.InsufficientBalance = RiskRefusal.InsufficientBalance ∨
     RiskRefusal.InsufficientBalance = RiskRefusal.PositionLimitReached) := by
  constructor
  · exact (canOpen_spec cfg0 [] 10 (1/20)).1.mpr ⟨by simp [cfg0], by norm_num [cfg0]⟩
  · exact (canOpen_spec cfg0 [] 0 0).2 RiskRefusal.InsufficientBalance
      (by unfold canOpen; norm_num [cfg0])

end PolymarketBot

namespace PolymarketBot

/-- C8: without a private key, every choice that requires auth is refused
before its handler runs — no operation is dispatched and handleInput
returns true, continuing the menu loop with the bot state untouched. -/
theorem handleInput_auth_guard (throws : Bool) (choice : String)
    (h : requiresAuth choice = true) :
    handleInput false throws choice = ([], true) := by
  simp [handleInput, tryBody, h]

/-- Witness for C8: choice "7" (place market order) requires auth and is
refused without a private key, dispatching nothing. -/
theorem handleInput_auth_guard_witness :
    requiresAuth "7" = true ∧ handleInput false true "7" = ([], true) :=
  ⟨by decide, handleInput_auth_guard true "7" (by decide)⟩

/-- C9: for each of the three prompted order actions, the exchange call is
made exactly when the confirmation answer lower-cases to "yes"; any other
answer places or cancels nothing. -/
theorem confirmation_gate_spec (tokenId side amount price size orderId answer : String) :
    ((placeMarketOrder tokenId side amount answer).isSome ↔ answer.toLower = "yes") ∧
    ((placeLimitOrder tokenId side price size answer).isSome ↔ answer.toLower = "yes") ∧
    ((cancelOrder orderId answer).isSome ↔ answer.toLower = "yes") := by
  by_cases h : answer.toLower = "yes" <;>
    simp [placeMarketOrder, placeLimitOrder, cancelOrder, h]

/-- Every choice other than "0" makes handleInput return true, whether the
dispatched handler throws or not. -/
lemma handleInput_snd_true (hasPrivateKey throws : Bool) (choice : String)
    (h0 : ¬ choice = "0") : (handleInput hasPrivateKey throws choice).2 = true := by
  by_cases h1 : (requiresAuth choice && !hasPrivateKey) = true
  · simp [handleInput, tryBody, h1]
  · by_cases k1 : choice = "1"
    · cases throws <;> simp_all [handleInput, tryBody, handlerResult, requiresAuth]
    · by_cases k2 : choice = "2"
      · cases throws <;> simp_all [handleInput, tryBody, handlerResult, requiresAuth]
      · by_cases k3 : choice = "3"
        · cases throws <;> simp_all [handleInput, tryBody, handlerResult, requiresAuth]
        · by_cases k4 : choice = "4"
          · cases throws <;> simp_all [handleInput, tryBody, handlerResult, requiresAuth]
          · by_cases k5 : choice = "5"
            · cases throws <;> simp_all [handleInput, tryBody, handlerResult, requiresAuth]
            · by_cases k6 : choice = "6"
              · cases throws <;> simp_all [handleInput, tryBody, handlerResult, requiresAuth]
              · by_cases k7 : choice = "7"
                · cases throws <;> simp_all [handleInput, tryBody, handlerResult, requiresAuth]
                · by_cases k8 : choice = "8"
                  · cases throws <;> simp_all [handleInput, tryBody, handlerResult, requiresAuth]
                  · by_cases k9 : choice = "9"
                    · cases throws <;>
                        simp_all [handleInput, tryBody, handlerResult, requiresAuth]
                    · by_cases k10 : choice = "10"
                      · cases throws <;>
                          simp_all [handleInput, tryBody, handlerResult, requiresAuth]
                      · simp [handleInput, tryBody, h1, k1, k2, k3, k4, k5, k6, k7, k8, k9,
                          k10, h0]

/-- C10: handleInput returns false exactly on the Exit choice "0"; every
other input — recognized or not, throwing handler or not — yields true, so
the menu loop terminates only on Exit. -/
theorem handleInput_exit_iff (hasPrivateKey throws : Bool) (choice : String) :
    ((handleInput hasPrivateKey throws choice).2 = false ↔ choice = "0") := by
  constructor
  · intro hfalse
    by_contra h0
    rw [handleInput_snd_true hasPrivateKey throws choice h0] at hfalse
    exact Bool.noConfusion hfalse
  · intro h0
    subst h0
    cases hasPrivateKey <;> cases throws <;> decide

end PolymarketBot
